import Mathlib

/-!
Verification development for the battery-push-server repository.

The repository contains four JavaScript sources, each a variant of the same
telemetry-relay server:
* `src/server.js` — ESM variant: persistent `db.json` store, live-activity
  pushes only, per-push HTTP/2 connection, token pruning in the catch block.
* `src/server.cjs` (first document) — node-apn variant: in-memory maps,
  silent background push on every submission.
* `src/unnamed/part_000` — http2 CJS variant: `b64url`, `buildJwt`,
  `getApnsSession`, `sendSilentPush`.
* `src/unnamed/part_001` — Render CJS variant: node-apn, background push with
  priority 5 and live-activity push with priority 10.

JavaScript strings are modelled as Lean `String`s, JavaScript numbers as `ℚ`
(every finite IEEE double is rational), `Date.now()` as a `Nat` of
milliseconds, and byte buffers as `List Nat` with every element `< 256`.
Stores (`Map`s and the `db.json` object) are modelled as functions
`String → Option _`. Handlers become pure functions from a store, a request
and the observed push-stream events to an updated store, HTTP response and
push bookkeeping.
-/

/-- JavaScript `Math.trunc` / the truncation step of `x|0` on a rational:
truncation toward zero.  `q.num / q.den` with `Int.tdiv` is exactly
round-toward-zero. -/
def jsTrunc (q : ℚ) : Int := Int.tdiv q.num (q.den : Int)

/-- JavaScript `x|0` (ToInt32): truncate toward zero, wrap into
`[-2^31, 2^31)`. -/
def toInt32 (q : ℚ) : Int := (jsTrunc q + 2 ^ 31).emod (2 ^ 32) - 2 ^ 31

/-- JavaScript truthiness of an optional string value (`undefined` and `""`
are falsy, every other string is truthy). -/
def truthy : Option String → Bool
  | none => false
  | some s => !(s == "")

/-- `hasSeg pat l` is true when `pat` occurs as a contiguous segment of `l`.
Auxiliary for the JavaScript `String.prototype.includes` model. -/
def hasSeg : List Char → List Char → Bool
  | pat, [] => pat.isEmpty
  | pat, a :: rest => pat.isPrefixOf (a :: rest) || hasSeg pat rest

/-- JavaScript `s.includes(pat)`: substring containment. -/
def includesSub (s pat : String) : Bool := hasSeg pat.toList s.toList

/-- A record of `db.devices` in `server.js`: the shared secret and the
optional live-activity push token. -/
structure Reg where
  secret : String
  liveActivityToken : Option String
deriving DecidableEq

/-- A record of `db.states` in `server.js` (and of the `latest` maps of the
CJS variants): `{ percent, charging, updatedAt/ts }`. -/
structure DevState where
  percent : ℚ
  charging : Bool
  updatedAt : Nat
deriving DecidableEq

/-- The persisted store of `server.js`: `{ devices: {}, states: {} }`. -/
structure Db where
  devices : String → Option Reg
  states : String → Option DevState

/-- An HTTP response as produced by the route handlers: status code, the
`ok` flag of the JSON body, and the optional `message`/`error` text. -/
structure HttpResp where
  status : Nat
  ok : Bool
  message : Option String
deriving DecidableEq

/-- What the push stream did, as observed by `sendLiveActivityPush` in
`server.js`: either the `end` event fired (the exchange completed and the
promise resolves with the collected response body — this includes non-200
gateway rejections, whose reason body arrives as a normal response), or the
`error` event fired (the promise rejects).  For the `error` case,
`reasonFromBody` is the result of the handler's `JSON.parse(resp)` probe of
the partially collected body (`some r` when the body parsed to an object
with a `reason` field), and `errText` is the error's own message. -/
inductive PushEv where
  | ended (body : String)
  | errored (reasonFromBody : Option String) (errText : String)
deriving DecidableEq

/-- The body of a `POST /battery` request to `server.js`.  `secret` is
`none` when the field is absent or not a string; `percent` is a numeric
payload value. -/
structure BatteryReq where
  deviceId : String
  secret : Option String
  percent : ℚ
  charging : Bool

/-- The live-activity payload built by `server.js`:
`{aps: {timestamp, event, content-state: {percent, charging}}}`. -/
structure ContentState where
  percent : Int
  charging : Bool
deriving DecidableEq

/-- The `aps` object of the live-activity payload. -/
structure LAPayload where
  timestamp : Nat
  event : String
  contentState : ContentState
deriving DecidableEq

/-- Result of one `POST /battery` request against `server.js`: the updated
store, the HTTP response, whether `sendLiveActivityPush` was invoked, and
the payload it was invoked with. -/
structure BatteryResult where
  db : Db
  resp : HttpResp
  pushAttempted : Bool
  payload : Option LAPayload

/-- Point update of the `devices` map. -/
def updDevices (db : Db) (k : String) (v : Option Reg) : Db :=
  ⟨fun d => if d = k then v else db.devices d, db.states⟩

/-- Point update of the `states` map. -/
def updStates (db : Db) (k : String) (v : Option DevState) : Db :=
  ⟨db.devices, fun d => if d = k then v else db.states d⟩

/-- The final error message computed by the `req.on('error')` handler in
`server.js`: the parsed `reason` of the response body when available,
otherwise the error's own text. -/
def errorMessage : Option String → String → String
  | some r, _ => r
  | none, e => e

/-- The catch-block test of `server.js`:
`errorMessage.includes('BadDeviceToken') || errorMessage.includes('Unregistered')`. -/
def clearsToken (msg : String) : Bool :=
  includesSub msg ("BadDeviceToken") || includesSub msg ("Unregistered")

/-- Whether a given push-stream behaviour makes the `server.js` catch block
delete the stored live-activity token: only a rejected promise (stream
`error`) whose final message contains one of the two substrings. -/
def clearsEv : PushEv → Bool
  | PushEv.ended _ => false
  | PushEv.errored rb et => clearsToken (errorMessage rb et)

/-- `app.post('/battery')` of `src/server.js`, lines 101–140.  The push
itself is I/O; its observable stream behaviour enters as the `ev`
parameter.  Mirrors the source order: 400 on missing/ill-typed fields, 403
on unknown device or secret mismatch, early 200 (without touching
`db.states`) when no live-activity token is on file, otherwise state write,
push attempt, catch-block pruning, 200. -/
def postBattery (db : Db) (now : Nat) (rq : BatteryReq) (ev : PushEv) : BatteryResult :=
  if rq.deviceId = "" ∨ rq.secret = none then
    ⟨db, ⟨400, false, some ("missing deviceId/secret")⟩, false, none⟩
  else
    match db.devices rq.deviceId with
    | none => ⟨db, ⟨403, false, some ("unauthorized")⟩, false, none⟩
    | some reg =>
      if rq.secret ≠ some reg.secret then
        ⟨db, ⟨403, false, some ("unauthorized")⟩, false, none⟩
      else if truthy reg.liveActivityToken = false then
        ⟨db, ⟨200, true, some ("no live activity registered")⟩, false, none⟩
      else
        let p := rq.percent
        let c := rq.charging
        let db1 := updStates db rq.deviceId (some ⟨p, c, now⟩)
        let payload : LAPayload := ⟨now / 1000, "update", ⟨toInt32 p, c⟩⟩
        let db2 :=
          if clearsEv ev then updDevices db1 rq.deviceId (some ⟨reg.secret, none⟩) else db1
        ⟨db2, ⟨200, true, none⟩, true, some payload⟩

/-- The body of a `POST /register-live-activity` request to `server.js`. -/
structure RegLAReq where
  deviceId : String
  token : String
  secret : String

/-- `app.post('/register-live-activity')` of `src/server.js`, lines 91–99:
no authentication; spreads the old record and overwrites both
`liveActivityToken` and `secret`. -/
def postRegisterLiveActivity (db : Db) (rq : RegLAReq) : Db × HttpResp :=
  if rq.deviceId = "" ∨ rq.token = "" ∨ rq.secret = "" then
    (db, ⟨400, false, some ("missing deviceId/token/secret")⟩)
  else
    (updDevices db rq.deviceId (some ⟨rq.secret, some rq.token⟩), ⟨200, true, none⟩)

/-- The `auth`/`authed` helper of the CJS variants:
`s = header x-auth || body secret; return s && s === SECRET`.  The combined
header-or-body value is the `Option String` argument. -/
def authedB (a : Option String) (cfg : String) : Bool :=
  match a with
  | none => false
  | some s => !(s == "") && (s == cfg)

/-- A `POST /battery` request body for the CJS variants; `auth` is the
value of the `x-auth` header or body `secret`, `percent`/`charging` are
`none` when absent or of the wrong JSON type. -/
structure CjsReq where
  deviceId : String
  auth : Option String
  percent : Option ℚ
  charging : Option Bool

/-- The payload guard of the CJS `/battery` routes:
`!deviceId || typeof percent !== 'number' || typeof charging !== 'boolean'`. -/
def validCjs (rq : CjsReq) : Bool :=
  !(rq.deviceId == "") && rq.percent.isSome && rq.charging.isSome

/-- Result of `POST /battery` against the node-apn variant in
`src/server.cjs`: updated `latest` map, whether the silent background push
was sent, and the HTTP response. -/
structure CjsResult where
  latest : String → Option DevState
  bgAttempted : Bool
  resp : HttpResp

/-- `app.post('/battery')` of `src/server.cjs` (node-apn variant), lines
50–78: auth check, payload guard, unconditional `latest.set`, then a
background push whenever a device token and `BUNDLE_ID` are on file —
there is no comparison with the previous state and no rate limiting. -/
def postBatteryCjs (cfg bundleId : String) (latest : String → Option DevState)
    (apnsToken : String → Option String) (rq : CjsReq) (now : Nat) : CjsResult :=
  if authedB rq.auth cfg then
    if validCjs rq then
      let p := rq.percent.getD 0
      let c := rq.charging.getD false
      let latest1 := fun d => if d = rq.deviceId then some ⟨p, c, now⟩ else latest d
      ⟨latest1, truthy (apnsToken rq.deviceId) && !(bundleId == ""), ⟨200, true, none⟩⟩
    else ⟨latest, false, ⟨400, false, some ("bad payload")⟩⟩
  else ⟨latest, false, ⟨403, false, some ("unauthorized")⟩⟩

/-- Result of `POST /battery` against the Render variant in
`src/unnamed/part_001`: updated `latest` map, whether the background and
the live-activity pushes were sent, and the HTTP response. -/
structure RenderResult where
  latest : String → Option DevState
  bgAttempted : Bool
  laAttempted : Bool
  resp : HttpResp

/-- `app.post('/battery')` of `src/unnamed/part_001` (Render variant):
auth, payload guard, `latest.set`, then two independent optional pushes —
background when `apnProvider && apnsTokens.get(deviceId) && BUNDLE_ID`,
live-activity when `apnProvider && liveTokens.get(deviceId) && BUNDLE_ID`.
`provider` models `apnProvider !== null`. -/
def postBatteryRender (cfg bundleId : String) (provider : Bool)
    (latest : String → Option DevState) (apnsTokens liveTokens : String → Option String)
    (rq : CjsReq) (now : Nat) : RenderResult :=
  if authedB rq.auth cfg then
    if validCjs rq then
      let p := rq.percent.getD 0
      let c := rq.charging.getD false
      let latest1 := fun d => if d = rq.deviceId then some ⟨p, c, now⟩ else latest d
      ⟨latest1,
        provider && truthy (apnsTokens rq.deviceId) && !(bundleId == ""),
        provider && truthy (liveTokens rq.deviceId) && !(bundleId == ""),
        ⟨200, true, none⟩⟩
    else ⟨latest, false, false, ⟨400, false, some ("bad payload")⟩⟩
  else ⟨latest, false, false, ⟨403, false, some ("unauthorized")⟩⟩

/-- A node-apn `Notification` as configured by the variants: topic,
push type, the explicitly set priority (`none` when the code never sets
`note.priority`), and the `contentAvailable` flag. -/
structure ApnNote where
  topic : String
  pushType : String
  priority : Option Nat
  contentAvailable : Bool
deriving DecidableEq

/-- The background notification of the Render variant
(`src/unnamed/part_001`): `pushType 'background'`, `priority = 5`,
`contentAvailable = 1`. -/
def renderBackgroundNote (bundleId : String) : ApnNote :=
  ⟨bundleId, "background", some 5, true⟩

/-- The live-activity notification of the Render variant:
topic `<bundle>.push-type.liveactivity`, `pushType 'liveactivity'`,
`priority = 10`. -/
def renderLiveActivityNote (bundleId : String) : ApnNote :=
  ⟨bundleId ++ ".push-type.liveactivity", "liveactivity", some 10, false⟩

/-- The background notification of the node-apn variant in
`src/server.cjs`: `pushType 'background'`, `contentAvailable = 1`, and no
`note.priority` assignment at all. -/
def cjsBackgroundNote (bundleId : String) : ApnNote :=
  ⟨bundleId, "background", none, true⟩

/-- The header block passed to `client.request` by `sendSilentPush` in
`src/unnamed/part_000`, lines 49–56, in source order.  Note the absence of
any `apns-priority` entry. -/
def sendSilentPushHeaders (deviceToken jwtStr bundleId : String) : List (String × String) :=
  [(":method", "POST"),
   (":path", "/3/device/" ++ deviceToken),
   ("apns-topic", bundleId),
   ("apns-push-type", "background"),
   ("authorization", "bearer " ++ jwtStr),
   ("content-type", "application/json")]

/-- The header block passed to `client.request` by `sendLiveActivityPush`
in `src/server.js`, in source order. -/
def sendLiveActivityPushHeaders (deviceToken jwtStr bundleId : String) : List (String × String) :=
  [(":method", "POST"),
   (":path", "/3/device/" ++ deviceToken),
   ("authorization", "bearer " ++ jwtStr),
   ("apns-topic", bundleId ++ ".push-type.liveactivity"),
   ("apns-push-type", "liveactivity"),
   ("apns-priority", "10"),
   ("content-type", "application/json")]

/-- Header lookup by name (first match). -/
def lookupHeader (hs : List (String × String)) (k : String) : Option String :=
  (hs.find? (fun p => p.1 == k)).map (fun p => p.2)

/-- State of the module-level `apnsSession` slot of `src/unnamed/part_000`.
Handles are numbered in creation order; `broken` collects the handles whose
underlying HTTP/2 session has failed or been closed (a `goaway` closes the
current session, and a session that emitted `error` is dead even though the
code keeps referencing it). -/
structure TM where
  slot : Option Nat
  nextId : Nat
  broken : List Nat
deriving DecidableEq

/-- The idle initial state: no session yet. -/
def tmInit : TM := ⟨none, 0, []⟩

/-- `getApnsSession` of `src/unnamed/part_000`, lines 20–26: lazily connect
when the slot is empty, otherwise return the stored handle unchanged. -/
def getApnsSession : TM → TM × Nat
  | ⟨none, n, br⟩ => (⟨some n, n + 1, br⟩, n)
  | ⟨some h, n, br⟩ => (⟨some h, n, br⟩, h)

/-- Events driving the session slot: an exchange (a push that calls
`getApnsSession`), a gateway `goaway` frame, a session `error`. -/
inductive TMEv where
  | exchange
  | goaway
  | errorEvt
deriving DecidableEq

/-- One step of the session-slot state machine.  On `goaway` the registered
handler closes the session and nulls the slot.  On `error` the registered
handler only logs: the session is dead (recorded in `broken`) but the slot
still holds it. -/
def tmStep : TM → TMEv → TM
  | s, TMEv.exchange => (getApnsSession s).1
  | s, TMEv.goaway =>
    match s.slot with
    | some h => ⟨none, s.nextId, h :: s.broken⟩
    | none => s
  | s, TMEv.errorEvt =>
    match s.slot with
    | some h => ⟨some h, s.nextId, h :: s.broken⟩
    | none => s

/-- Run the session state machine from the initial state. -/
def tmRun (evs : List TMEv) : TM := evs.foldl tmStep tmInit

/-- Modelled from the spec: the Delivery Policy background decision rule
(spec §4.4), which appears in no source file — push if no prior state
exists, or the integer-truncated percent delta is at least 1, or more than
five minutes elapsed since the last push.  `prev` carries the previous
percent and the last-push-at timestamp (milliseconds). -/
def specShouldPushBg (prev : Option (ℚ × Nat)) (nextPercent : ℚ) (now : Nat) : Bool :=
  match prev with
  | none => true
  | some pv => 1 ≤ (jsTrunc nextPercent - jsTrunc pv.1).natAbs || 5 * 60 * 1000 < now - pv.2

/-- Concrete store: device `d1` registered with secret `s3cr3t` and a
live-activity token on file; no states yet. -/
def dbOne : Db :=
  ⟨fun d => if d = "d1" then some ⟨"s3cr3t", some ("tokA")⟩ else none, fun _ => none⟩

/-- Concrete store: device `d1` registered with secret `s3cr3t` and no
live-activity token; no states yet. -/
def dbNoTok : Db :=
  ⟨fun d => if d = "d1" then some ⟨"s3cr3t", none⟩ else none, fun _ => none⟩

/-- Concrete `latest` map: device `d1` last reported 50 percent,
discharging, at time 1000 ms. -/
def latestOne : String → Option DevState :=
  fun d => if d = "d1" then some ⟨50, false, 1000⟩ else none

/-- Concrete `apnsToken` map: device `d1` has a background device token. -/
def apnsOne : String → Option String :=
  fun d => if d = "d1" then some ("tok") else none

/-- The standard base64 alphabet as ASCII codes:
`A`–`Z` ↦ 0–25, `a`–`z` ↦ 26–51, `0`–`9` ↦ 52–61, `+` ↦ 62, `/` ↦ 63. -/
def sextetToChar (n : Nat) : Nat :=
  if n < 26 then 65 + n
  else if n < 52 then 97 + (n - 26)
  else if n < 62 then 48 + (n - 52)
  else if n = 62 then 43
  else 47

/-- Padded base64 of a byte list (`Buffer.toString('base64')`): groups of
three bytes become four alphabet characters; a trailing group of two or one
bytes is padded with `=` (code 61). -/
def base64Chunks : List Nat → List Nat
  | a :: b :: c :: rest =>
    sextetToChar (a / 4) :: sextetToChar (a % 4 * 16 + b / 16) ::
      sextetToChar (b % 16 * 4 + c / 64) :: sextetToChar (c % 64) :: base64Chunks rest
  | [a, b] => [sextetToChar (a / 4), sextetToChar (a % 4 * 16 + b / 16),
      sextetToChar (b % 16 * 4), 61]
  | [a] => [sextetToChar (a / 4), sextetToChar (a % 4 * 16), 61, 61]
  | [] => []

/-- The two character swaps of `b64url`: `+` ↦ `-`, `/` ↦ `_`. -/
def swapUrl (c : Nat) : Nat := if c = 43 then 45 else if c = 47 then 95 else c

/-- `b64url` of `src/unnamed/part_000`, lines 28–31: base64, then strip the
`=` padding, then swap `+`/`/` for `-`/`_`. -/
def b64url (bs : List Nat) : List Nat :=
  ((base64Chunks bs).filter (fun c => decide (c ≠ 61))).map swapUrl

/-- Inverse of the base64url alphabet: `some` sextet for an alphabet
character, `none` otherwise. -/
def charToSextet (c : Nat) : Option Nat :=
  if 65 ≤ c ∧ c ≤ 90 then some (c - 65)
  else if 97 ≤ c ∧ c ≤ 122 then some (26 + (c - 97))
  else if 48 ≤ c ∧ c ≤ 57 then some (52 + (c - 48))
  else if c = 45 then some 62
  else if c = 95 then some 63
  else none

/-- Decoder for unpadded base64url: full four-character groups yield three
bytes; a trailing group of three or two characters yields two bytes or one
byte; a trailing single character is malformed. -/
def b64urlDecode : List Nat → Option (List Nat)
  | [] => some []
  | [c1, c2] => do
    let s1 ← charToSextet c1
    let s2 ← charToSextet c2
    pure [s1 * 4 + s2 / 16]
  | [c1, c2, c3] => do
    let s1 ← charToSextet c1
    let s2 ← charToSextet c2
    let s3 ← charToSextet c3
    pure [s1 * 4 + s2 / 16, s2 % 16 * 16 + s3 / 4]
  | c1 :: c2 :: c3 :: c4 :: rest => do
    let s1 ← charToSextet c1
    let s2 ← charToSextet c2
    let s3 ← charToSextet c3
    let s4 ← charToSextet c4
    let tail ← b64urlDecode rest
    pure ([s1 * 4 + s2 / 16, s2 % 16 * 16 + s3 / 4, s3 % 4 * 64 + s4] ++ tail)
  | [_] => none

/-- A credential segment is well formed when it contains neither the `.`
separator (code 46) nor the `=` padding character (code 61). -/
def dotFree (l : List Nat) : Bool := l.all (fun c => !(c == 46) && !(c == 61))

/-- ASCII codes of a Lean string literal (all literals used here are pure
ASCII, matching the JavaScript source text). -/
def asciiBytes (s : String) : List Nat := s.toList.map Char.toNat

/-- Decimal rendering worker: structural recursion on a fuel argument so
that the definition reduces inside the kernel.  `fuel ≥ number of digits`
suffices; callers pass `n + 1`. -/
def natAsciiGo : Nat → Nat → List Nat
  | 0, _ => []
  | fuel + 1, n => if n < 10 then [48 + n] else natAsciiGo fuel (n / 10) ++ [48 + n % 10]

/-- Decimal ASCII rendering of a natural number, as `JSON.stringify`
renders a nonnegative integer. -/
def natAscii (n : Nat) : List Nat := natAsciiGo (n + 1) n

/-- `JSON.stringify({ alg: 'ES256', kid: KEY_ID, typ: 'JWT' })` as a byte
list, for a key identifier whose bytes need no JSON escaping. -/
def headerJson (kid : List Nat) : List Nat :=
  asciiBytes ("\x7b\"alg\":\"ES256\",\"kid\":\"") ++ kid ++ asciiBytes ("\",\"typ\":\"JWT\"\x7d")

/-- `JSON.stringify({ iss: TEAM_ID, iat: Math.floor(Date.now()/1000) })` as
a byte list: the issuer (unescaped bytes) and the integer issue time in
seconds. -/
def payloadJson (teamId : List Nat) (nowMs : Nat) : List Nat :=
  asciiBytes ("\x7b\"iss\":\"") ++ teamId ++ asciiBytes ("\",\"iat\":") ++
    natAscii (nowMs / 1000) ++ asciiBytes ("\x7d")

/-- `buildJwt` of `src/unnamed/part_000`, lines 33–41.  The ES256 signing
primitive (`crypto.createSign … .sign`, an external platform call) is
abstracted by its output `sig`, the raw `r‖s` signature bytes computed over
`header.payload`. -/
def buildJwt (teamId kid sig : List Nat) (nowMs : Nat) : List Nat :=
  let header := b64url (headerJson kid)
  let payload := b64url (payloadJson teamId nowMs)
  let unsigned := header ++ 46 :: payload
  unsigned ++ 46 :: b64url sig

theorem sextetToChar_ne61 (n : Nat) : sextetToChar n ≠ 61 := by
  unfold sextetToChar
  repeat' split
  all_goals omega

theorem swapUrl_sextetToChar_ne (n : Nat) :
    swapUrl (sextetToChar n) ≠ 46 ∧ swapUrl (sextetToChar n) ≠ 61 := by
  unfold sextetToChar swapUrl
  repeat' split
  all_goals omega

theorem charToSextet_swap : ∀ s, s < 64 → charToSextet (swapUrl (sextetToChar s)) = some s := by
  decide

theorem b64url_cons3 (a b c : Nat) (rest : List Nat) :
    b64url (a :: b :: c :: rest) =
      swapUrl (sextetToChar (a / 4)) :: swapUrl (sextetToChar (a % 4 * 16 + b / 16)) ::
      swapUrl (sextetToChar (b % 16 * 4 + c / 64)) :: swapUrl (sextetToChar (c % 64)) ::
      b64url rest := by
  unfold b64url
  rw [show base64Chunks (a :: b :: c :: rest) =
      sextetToChar (a / 4) :: sextetToChar (a % 4 * 16 + b / 16) ::
      sextetToChar (b % 16 * 4 + c / 64) :: sextetToChar (c % 64) :: base64Chunks rest from rfl]
  simp [List.filter_cons, sextetToChar_ne61]

theorem b64url_pair (a b : Nat) :
    b64url [a, b] =
      [swapUrl (sextetToChar (a / 4)), swapUrl (sextetToChar (a % 4 * 16 + b / 16)),
        swapUrl (sextetToChar (b % 16 * 4))] := by
  unfold b64url
  rw [show base64Chunks [a, b] =
      [sextetToChar (a / 4), sextetToChar (a % 4 * 16 + b / 16),
        sextetToChar (b % 16 * 4), 61] from rfl]
  simp [List.filter_cons, sextetToChar_ne61]

theorem b64url_single (a : Nat) :
    b64url [a] = [swapUrl (sextetToChar (a / 4)), swapUrl (sextetToChar (a % 4 * 16))] := by
  unfold b64url
  rw [show base64Chunks [a] =
      [sextetToChar (a / 4), sextetToChar (a % 4 * 16), 61, 61] from rfl]
  simp [List.filter_cons, sextetToChar_ne61]

theorem b64urlDecode_b64url (bs : List Nat) (h : ∀ x ∈ bs, x < 256) :
    b64urlDecode (b64url bs) = some bs := by
  induction bs using base64Chunks.induct with
  | case1 a b c rest ih =>
    have ha : a < 256 := h a (by simp)
    have hb : b < 256 := h b (by simp)
    have hc : c < 256 := h c (by simp)
    have hrest : ∀ x ∈ rest, x < 256 := fun x hx => h x (by simp [hx])
    have e1 := charToSextet_swap (a / 4) (by omega)
    have e2 := charToSextet_swap (a % 4 * 16 + b / 16) (by omega)
    have e3 := charToSextet_swap (b % 16 * 4 + c / 64) (by omega)
    have e4 := charToSextet_swap (c % 64) (by omega)
    rw [b64url_cons3]
    simp only [b64urlDecode, e1, e2, e3, e4, ih hrest, Option.bind_eq_bind, Option.some_bind]
    have g1 : a / 4 * 4 + (a % 4 * 16 + b / 16) / 16 = a := by omega
    have g2 : (a % 4 * 16 + b / 16) % 16 * 16 + (b % 16 * 4 + c / 64) / 4 = b := by omega
    have g3 : (b % 16 * 4 + c / 64) % 4 * 64 + c % 64 = c := by omega
    simp [g1, g2, g3]
  | case2 a b =>
    have ha : a < 256 := h a (by simp)
    have hb : b < 256 := h b (by simp)
    have e1 := charToSextet_swap (a / 4) (by omega)
    have e2 := charToSextet_swap (a % 4 * 16 + b / 16) (by omega)
    have e3 := charToSextet_swap (b % 16 * 4) (by omega)
    rw [b64url_pair]
    simp only [b64urlDecode, e1, e2, e3, Option.bind_eq_bind, Option.some_bind]
    have g1 : a / 4 * 4 + (a % 4 * 16 + b / 16) / 16 = a := by omega
    simp [g1]
    omega
  | case3 a =>
    have ha : a < 256 := h a (by simp)
    have e1 := charToSextet_swap (a / 4) (by omega)
    have e2 := charToSextet_swap (a % 4 * 16) (by omega)
    rw [b64url_single]
    simp only [b64urlDecode, e1, e2, Option.bind_eq_bind, Option.some_bind]
    simp
    omega
  | case4 => simp [b64url, base64Chunks, b64urlDecode]

theorem natAsciiGo_lt : ∀ fuel n x, x ∈ natAsciiGo fuel n → x < 256 := by
  intro fuel
  induction fuel with
  | zero => intro n x hx; simp [natAsciiGo] at hx
  | succ fuel ih =>
    intro n x hx
    simp only [natAsciiGo] at hx
    split at hx
    · simp at hx; omega
    · rcases List.mem_append.mp hx with h1 | h2
      · exact ih _ _ h1
      · simp at h2; omega

theorem natAscii_lt (n x : Nat) (hx : x ∈ natAscii n) : x < 256 :=
  natAsciiGo_lt _ _ _ hx

theorem headerJson_lt (kid : List Nat) (h : ∀ x ∈ kid, x < 128) :
    ∀ x ∈ headerJson kid, x < 256 := by
  intro x hx
  simp only [headerJson, List.mem_append] at hx
  rcases hx with (h1 | h2) | h3
  · exact (show ∀ y ∈ asciiBytes ("\x7b\"alg\":\"ES256\",\"kid\":\""), y < 256 by decide) x h1
  · have := h x h2; omega
  · exact (show ∀ y ∈ asciiBytes ("\",\"typ\":\"JWT\"\x7d"), y < 256 by decide) x h3

theorem payloadJson_lt (teamId : List Nat) (nowMs : Nat) (h : ∀ x ∈ teamId, x < 128) :
    ∀ x ∈ payloadJson teamId nowMs, x < 256 := by
  intro x hx
  simp only [payloadJson, List.mem_append] at hx
  rcases hx with (((h1 | h2) | h3) | h4) | h5
  · exact (show ∀ y ∈ asciiBytes ("\x7b\"iss\":\""), y < 256 by decide) x h1
  · have := h x h2; omega
  · exact (show ∀ y ∈ asciiBytes ("\",\"iat\":"), y < 256 by decide) x h3
  · exact natAscii_lt _ _ h4
  · exact (show ∀ y ∈ asciiBytes ("\x7d"), y < 256 by decide) x h5

/-- After a passing 400-guard and authentication check, `postBattery`
reduces to the token-gated push branch.  Shared reduction lemma for the
claims about the `server.js` battery route. -/
theorem postBattery_auth (db : Db) (now : Nat) (rq : BatteryReq) (ev : PushEv) (reg : Reg)
    (hid : rq.deviceId ≠ "") (hreg : db.devices rq.deviceId = some reg)
    (hsec : rq.secret = some reg.secret) :
    postBattery db now rq ev =
      if truthy reg.liveActivityToken = false then
        ⟨db, ⟨200, true, some ("no live activity registered")⟩, false, none⟩
      else
        let db1 := updStates db rq.deviceId (some ⟨rq.percent, rq.charging, now⟩)
        let payload : LAPayload := ⟨now / 1000, "update", ⟨toInt32 rq.percent, rq.charging⟩⟩
        let db2 :=
          if clearsEv ev then updDevices db1 rq.deviceId (some ⟨reg.secret, none⟩) else db1
        ⟨db2, ⟨200, true, none⟩, true, some payload⟩ := by
  unfold postBattery
  rw [if_neg (by simp [hid, hsec]), hreg]
  simp [hsec]

/-- Invariant of the session slot: every allocated handle that is still
alive is the handle currently in the slot — hence at most one live
session exists at any time. -/
def tmInv (s : TM) : Prop := ∀ k, k < s.nextId → k ∉ s.broken → s.slot = some k

theorem tmInv_step (s : TM) (e : TMEv) (h : tmInv s) : tmInv (tmStep s e) := by
  obtain ⟨slot, n, br⟩ := s
  cases e with
  | exchange =>
    cases slot with
    | none =>
      intro k hk hb
      have hk' : k < n + 1 := hk
      by_cases hkn : k = n
      · subst hkn; rfl
      · have h1 : k < n := by omega
        exact absurd (h k h1 hb) (by simp)
    | some h0 => exact h
  | goaway =>
    cases slot with
    | none => exact h
    | some h0 =>
      intro k hk hb
      have hb1 : k ∉ br := fun hmem => hb (List.mem_cons_of_mem _ hmem)
      have hne : k ≠ h0 := fun he => hb (he ▸ List.mem_cons_self _ _)
      have h2 := h k hk hb1
      injection h2 with h3
      exact absurd h3.symm hne
  | errorEvt =>
    cases slot with
    | none => exact h
    | some h0 =>
      intro k hk hb
      have hb1 : k ∉ br := fun hmem => hb (List.mem_cons_of_mem _ hmem)
      exact h k hk hb1

theorem tmInv_foldl : ∀ (evs : List TMEv) (s : TM), tmInv s → tmInv (List.foldl tmStep s evs) := by
  intro evs
  induction evs with
  | nil => intro s h; exact h
  | cons e rest ih => intro s h; exact ih _ (tmInv_step s e h)

theorem tmInv_run (evs : List TMEv) : tmInv (tmRun evs) := by
  apply tmInv_foldl
  intro k hk hb
  exact absurd hk (by simp [tmInit])

theorem swapSextet_ok (n : Nat) :
    (!(swapUrl (sextetToChar n) == 46) && !(swapUrl (sextetToChar n) == 61)) = true := by
  have h := swapUrl_sextetToChar_ne n
  simp [h.1, h.2]

theorem dotFree_b64url (bs : List Nat) : dotFree (b64url bs) = true := by
  induction bs using base64Chunks.induct with
  | case1 a b c rest ih =>
    rw [b64url_cons3]
    simp [dotFree, List.all_cons, swapSextet_ok]
    simpa [dotFree] using ih
  | case2 a b =>
    rw [b64url_pair]
    simp [dotFree, List.all_cons, swapSextet_ok]
  | case3 a =>
    rw [b64url_single]
    simp [dotFree, List.all_cons, swapSextet_ok]
  | case4 => simp [b64url, base64Chunks, dotFree]

/-- C1 (counterexample): with a prior state of 50 percent recorded at
t = 1000 ms and a new submission of 50 percent at t = 1000 ms (integer
delta 0, elapsed 0 ms, both below the spec thresholds), the node-apn
`/battery` route still attempts the background push, because the code never
consults the previous state — refuting the claim that no background push is
attempted when the delta is < 1 and less than five minutes elapsed. -/
theorem c1_counterexample :
    (postBatteryCjs ("s") ("b") latestOne apnsOne
        ⟨"d1", some ("s"), some 50, some false⟩ 1000).bgAttempted = true
    ∧ specShouldPushBg (some (50, 1000)) 50 1000 = false := by decide

/-- C1 (amended): the background push decision of the `/battery` routes is
independent of any prior device state and of elapsed time: a background
push is attempted exactly when the request authenticates, the payload is
well typed, a device token is on file and the bundle id is configured.
The `latest` store does not occur on the right-hand side — no
change-detection or five-minute rate limit exists in the code. -/
theorem c1_push_regardless_of_state (cfg bundleId : String)
    (latest : String → Option DevState) (apnsToken : String → Option String)
    (rq : CjsReq) (now : Nat) :
    (postBatteryCjs cfg bundleId latest apnsToken rq now).bgAttempted =
      (authedB rq.auth cfg && validCjs rq &&
        truthy (apnsToken rq.deviceId) && !(bundleId == "")) := by
  unfold postBatteryCjs
  cases h1 : authedB rq.auth cfg <;> cases h2 : validCjs rq <;> simp [h1, h2]

/-- C2 (counterexample): a gateway rejection is a complete HTTP/2 response
(non-200 status with body `{"reason":"BadDeviceToken"}`) whose stream ends
normally; `sendLiveActivityPush` then resolves the promise with the body
text, the catch block never runs, and the stored live-activity token is
retained — refuting the claim that a `BadDeviceToken` rejection always
clears the address. -/
theorem c2_counterexample :
    ((postBattery dbOne 1000 ⟨"d1", some ("s3cr3t"), 42, false⟩
        (PushEv.ended ("\x7b\"reason\":\"BadDeviceToken\"\x7d"))).db.devices "d1")
      = some ⟨"s3cr3t", some ("tokA")⟩ := by decide

/-- C2 (amended): the live-activity address is cleared exactly when the
push promise rejects — a stream `error` event — with a final message (the
body's parsed `reason` when available, otherwise the error's own text)
containing `BadDeviceToken` or `Unregistered` as a substring; on any
resolved exchange, and on any rejection whose message lacks both
substrings, the registration is unchanged.  The secret survives the
pruning. -/
theorem c2_prune_on_error_substring (db : Db) (now : Nat) (rq : BatteryReq) (ev : PushEv)
    (reg : Reg) (t : String) (hid : rq.deviceId ≠ "")
    (hreg : db.devices rq.deviceId = some reg) (hsec : rq.secret = some reg.secret)
    (htok : reg.liveActivityToken = some t) (ht : t ≠ "") :
    (clearsEv ev = true →
      (postBattery db now rq ev).db.devices rq.deviceId = some ⟨reg.secret, none⟩)
    ∧ (clearsEv ev = false →
      (postBattery db now rq ev).db.devices = db.devices) := by
  rw [postBattery_auth db now rq ev reg hid hreg hsec]
  have htr : truthy reg.liveActivityToken = true := by simp [htok, truthy, ht]
  rw [if_neg (by simp [htr])]
  constructor
  · intro hc; simp [hc, updDevices, updStates]
  · intro hc; simp [hc, updDevices, updStates]

/-- C2 (witness): a stream error whose partially collected body parsed to
reason `BadDeviceToken` clears the token of device `d1` while keeping its
secret. -/
theorem c2_prune_on_error_substring_witness :
    ((postBattery dbOne 1000 ⟨"d1", some ("s3cr3t"), 42, false⟩
        (PushEv.errored (some ("BadDeviceToken")) (""))).db.devices "d1")
      = some ⟨"s3cr3t", none⟩ := by
  have h := c2_prune_on_error_substring dbOne 1000 ⟨"d1", some ("s3cr3t"), 42, false⟩
      (PushEv.errored (some ("BadDeviceToken")) ("")) ⟨"s3cr3t", some ("tokA")⟩ ("tokA")
      (by decide) (by decide) (by decide) (by decide) (by decide)
  exact h.1 (by decide)

/-- C3 (counterexample): an authenticated, well-formed submission for a
device with no live-activity token on file is acknowledged with 200/ok,
yet no state record is written — refuting the claim that every
authenticated valid submission persists the device state. -/
theorem c3_counterexample :
    ((postBattery dbNoTok 1000 ⟨"d1", some ("s3cr3t"), 42, false⟩
        (PushEv.ended (""))).resp.status = 200)
    ∧ ((postBattery dbNoTok 1000 ⟨"d1", some ("s3cr3t"), 42, false⟩
        (PushEv.ended (""))).resp.ok = true)
    ∧ ((postBattery dbNoTok 1000 ⟨"d1", some ("s3cr3t"), 42, false⟩
        (PushEv.ended (""))).db.states "d1" = none)
    ∧ ((postBattery dbNoTok 1000 ⟨"d1", some ("s3cr3t"), 42, false⟩
        (PushEv.ended (""))).pushAttempted = false) := by decide

/-- C3 (amended): every authenticated valid submission is acknowledged
with 200/ok whatever the push stream did; whenever a push is attempted the
state record holds the submitted reading — a value independent of the push
events, reflecting that the write happens before the attempt; but when no
live-activity token is on file the submission is acknowledged without any
state write (the whole store is returned unchanged). -/
theorem c3_ack_and_state_order (db : Db) (now : Nat) (rq : BatteryReq) (ev : PushEv)
    (reg : Reg) (hid : rq.deviceId ≠ "")
    (hreg : db.devices rq.deviceId = some reg) (hsec : rq.secret = some reg.secret) :
    ((postBattery db now rq ev).resp.status = 200 ∧ (postBattery db now rq ev).resp.ok = true)
    ∧ (truthy reg.liveActivityToken = true →
        (postBattery db now rq ev).pushAttempted = true
        ∧ (postBattery db now rq ev).db.states rq.deviceId
            = some ⟨rq.percent, rq.charging, now⟩)
    ∧ (truthy reg.liveActivityToken = false →
        (postBattery db now rq ev).pushAttempted = false
        ∧ (postBattery db now rq ev).db = db) := by
  rw [postBattery_auth db now rq ev reg hid hreg hsec]
  cases htr : truthy reg.liveActivityToken with
  | false => simp
  | true =>
    refine ⟨?_, ?_, ?_⟩
    · cases hc : clearsEv ev <;> simp [hc]
    · intro _
      cases hc : clearsEv ev <;> simp [hc, updDevices, updStates]
    · intro hcon
      simp at hcon

/-- C3 (witness): with a token on file and a failing push stream, the
submission is still acknowledged 200/ok, the push was attempted, and the
state record holds the submitted reading. -/
theorem c3_ack_and_state_order_witness :
    ((postBattery dbOne 1000 ⟨"d1", some ("s3cr3t"), 42, false⟩
        (PushEv.errored none ("boom"))).resp.status = 200)
    ∧ ((postBattery dbOne 1000 ⟨"d1", some ("s3cr3t"), 42, false⟩
        (PushEv.errored none ("boom"))).pushAttempted = true)
    ∧ ((postBattery dbOne 1000 ⟨"d1", some ("s3cr3t"), 42, false⟩
        (PushEv.errored none ("boom"))).db.states "d1" = some ⟨42, false, 1000⟩) := by
  have h := c3_ack_and_state_order dbOne 1000 ⟨"d1", some ("s3cr3t"), 42, false⟩
      (PushEv.errored none ("boom")) ⟨"s3cr3t", some ("tokA")⟩
      (by decide) (by decide) (by decide)
  exact ⟨h.1.1, (h.2.1 (by decide)).1, (h.2.1 (by decide)).2⟩

/-- C4: a live-activity push is attempted exactly when a (truthy)
live-activity token is on file; when it is absent the route acknowledges
200/ok with the skip message rather than an error; and in the Render
variant, which serves both categories, the live-activity decision depends
only on the live-token map while the background decision depends only on
the device-token map, so a live-activity skip never affects the background
category. -/
theorem c4_liveactivity_iff (db : Db) (now : Nat) (rq : BatteryReq) (ev : PushEv) (reg : Reg)
    (cfg bundleId : String) (latest : String → Option DevState)
    (apns la : String → Option String) (rq2 : CjsReq) (now2 : Nat)
    (hid : rq.deviceId ≠ "") (hreg : db.devices rq.deviceId = some reg)
    (hsec : rq.secret = some reg.secret)
    (hauth2 : authedB rq2.auth cfg = true) (hvalid2 : validCjs rq2 = true)
    (hbundle : bundleId ≠ "") :
    ((postBattery db now rq ev).pushAttempted = truthy reg.liveActivityToken)
    ∧ (truthy reg.liveActivityToken = false →
        (postBattery db now rq ev).resp = ⟨200, true, some ("no live activity registered")⟩)
    ∧ ((postBatteryRender cfg bundleId true latest apns la rq2 now2).laAttempted
        = truthy (la rq2.deviceId))
    ∧ ((postBatteryRender cfg bundleId true latest apns la rq2 now2).bgAttempted
        = truthy (apns rq2.deviceId)) := by
  have hb : (bundleId == "") = false := by
    simp [hbundle]
  rw [postBattery_auth db now rq ev reg hid hreg hsec]
  refine ⟨?_, ?_, ?_, ?_⟩
  · cases htr : truthy reg.liveActivityToken <;> simp [htr]
  · intro htr; simp [htr]
  · unfold postBatteryRender; simp [hauth2, hvalid2, hb]
  · unfold postBatteryRender; simp [hauth2, hvalid2, hb]

/-- C4 (witness): device `d1` has no token in `dbNoTok`, so no push is
attempted and the skip is acknowledged 200/ok; in the Render variant with a
live token but no device token, the live-activity push fires while the
background one does not. -/
theorem c4_liveactivity_iff_witness :
    ((postBattery dbNoTok 1000 ⟨"d1", some ("s3cr3t"), 42, false⟩
        (PushEv.ended (""))).pushAttempted = false)
    ∧ ((postBattery dbNoTok 1000 ⟨"d1", some ("s3cr3t"), 42, false⟩
        (PushEv.ended (""))).resp = ⟨200, true, some ("no live activity registered")⟩)
    ∧ ((postBatteryRender ("s") ("b") true latestOne (fun _ => none) apnsOne
        ⟨"d1", some ("s"), some 50, some false⟩ 1000).laAttempted = true)
    ∧ ((postBatteryRender ("s") ("b") true latestOne (fun _ => none) apnsOne
        ⟨"d1", some ("s"), some 50, some false⟩ 1000).bgAttempted = false) := by
  have h := c4_liveactivity_iff dbNoTok 1000 ⟨"d1", some ("s3cr3t"), 42, false⟩
      (PushEv.ended ("")) ⟨"s3cr3t", none⟩ ("s") ("b") latestOne (fun _ => none) apnsOne
      ⟨"d1", some ("s"), some 50, some false⟩ 1000
      (by decide) (by decide) (by decide) (by decide) (by decide) (by decide)
  refine ⟨?_, h.2.1 (by decide), ?_, ?_⟩
  · rw [h.1]; decide
  · rw [h.2.2.1]; decide
  · rw [h.2.2.2]; decide

/-- C5 (counterexample): submitting the fractional reading 42.5 stores the
raw rational 42.5 — not an integer, so not an integer in [0,100] — while
the push body carries the `|0`-truncated 42; no normalization happens
before storage. -/
theorem c5_counterexample :
    ((postBattery dbOne 1000 ⟨"d1", some ("s3cr3t"), mkRat 85 2, false⟩
        (PushEv.ended (""))).db.states "d1" = some ⟨mkRat 85 2, false, 1000⟩)
    ∧ ((mkRat 85 2).isInt = false)
    ∧ ((postBattery dbOne 1000 ⟨"d1", some ("s3cr3t"), mkRat 85 2, false⟩
        (PushEv.ended (""))).payload = some ⟨1, "update", ⟨42, false⟩⟩) := by decide

/-- C5 (amended): for every numeric input, the stored state holds the raw
submitted percent — neither truncated nor clamped to [0,100] — while the
percent placed in the push body is the 32-bit integer truncation `p|0`
(also unclamped). -/
theorem c5_raw_store_trunc_body (db : Db) (now : Nat) (rq : BatteryReq) (ev : PushEv)
    (reg : Reg) (t : String) (hid : rq.deviceId ≠ "")
    (hreg : db.devices rq.deviceId = some reg) (hsec : rq.secret = some reg.secret)
    (htok : reg.liveActivityToken = some t) (ht : t ≠ "") :
    ((postBattery db now rq ev).db.states rq.deviceId
        = some ⟨rq.percent, rq.charging, now⟩)
    ∧ ((postBattery db now rq ev).payload
        = some ⟨now / 1000, "update", ⟨toInt32 rq.percent, rq.charging⟩⟩) := by
  rw [postBattery_auth db now rq ev reg hid hreg hsec]
  have htr : truthy reg.liveActivityToken = true := by simp [htok, truthy, ht]
  rw [if_neg (by simp [htr])]
  cases hc : clearsEv ev <;> simp [hc, updDevices, updStates]

/-- C5 (witness): the negative fraction -3.5 is stored raw and truncated
toward zero to -3 in the push body (neither value clamped to [0,100]). -/
theorem c5_raw_store_trunc_body_witness :
    ((postBattery dbOne 1000 ⟨"d1", some ("s3cr3t"), mkRat (-7) 2, true⟩
        (PushEv.ended (""))).db.states "d1" = some ⟨mkRat (-7) 2, true, 1000⟩)
    ∧ ((postBattery dbOne 1000 ⟨"d1", some ("s3cr3t"), mkRat (-7) 2, true⟩
        (PushEv.ended (""))).payload = some ⟨1, "update", ⟨-3, true⟩⟩) := by
  have h := c5_raw_store_trunc_body dbOne 1000 ⟨"d1", some ("s3cr3t"), mkRat (-7) 2, true⟩
      (PushEv.ended ("")) ⟨"s3cr3t", some ("tokA")⟩ ("tokA")
      (by decide) (by decide) (by decide) (by decide) (by decide)
  exact ⟨h.1, h.2.trans (by decide)⟩

/-- C9: for any store and any nonempty `deviceId`, `token`, `secret`, the
`/register-live-activity` route succeeds with 200/ok, replaces the
registration so that both the live-activity token and the secret are the
supplied values — with no comparison against any previously stored secret,
and also when no registration existed — and a subsequent `/battery`
submission authenticated with that secret is accepted (200/ok, push
attempted). -/
theorem c9_register_overwrites (db : Db) (rq : RegLAReq) (now : Nat) (p : ℚ) (c : Bool)
    (ev : PushEv) (h1 : rq.deviceId ≠ "") (h2 : rq.token ≠ "") (h3 : rq.secret ≠ "") :
    ((postRegisterLiveActivity db rq).2 = ⟨200, true, none⟩)
    ∧ ((postRegisterLiveActivity db rq).1.devices rq.deviceId
        = some ⟨rq.secret, some rq.token⟩)
    ∧ ((postBattery (postRegisterLiveActivity db rq).1 now
        ⟨rq.deviceId, some rq.secret, p, c⟩ ev).resp.status = 200)
    ∧ ((postBattery (postRegisterLiveActivity db rq).1 now
        ⟨rq.deviceId, some rq.secret, p, c⟩ ev).resp.ok = true)
    ∧ ((postBattery (postRegisterLiveActivity db rq).1 now
        ⟨rq.deviceId, some rq.secret, p, c⟩ ev).pushAttempted = true) := by
  have hne : ¬ (rq.deviceId = "" ∨ rq.token = "" ∨ rq.secret = "") := by simp [h1, h2, h3]
  have hdev : (postRegisterLiveActivity db rq).1.devices rq.deviceId
      = some ⟨rq.secret, some rq.token⟩ := by
    unfold postRegisterLiveActivity
    rw [if_neg hne]
    simp [updDevices]
  have hresp : (postRegisterLiveActivity db rq).2 = ⟨200, true, none⟩ := by
    unfold postRegisterLiveActivity
    rw [if_neg hne]
  have hpb := postBattery_auth (postRegisterLiveActivity db rq).1 now
      ⟨rq.deviceId, some rq.secret, p, c⟩ ev ⟨rq.secret, some rq.token⟩ h1 hdev rfl
  have htr : truthy (some rq.token) = true := by simp [truthy, h2]
  rw [hpb, if_neg (by simp [htr])]
  refine ⟨hresp, hdev, ?_, ?_, ?_⟩ <;> cases hc : clearsEv ev <;> simp [hc]

/-- C9 (witness): registering a fresh device `d9` (no prior record in
`dbOne`) with token `tokB` and secret `n3w` succeeds and the new secret
authorizes a battery submission. -/
theorem c9_register_overwrites_witness :
    ((postRegisterLiveActivity dbOne ⟨"d9", "tokB", "n3w"⟩).2 = ⟨200, true, none⟩)
    ∧ ((postRegisterLiveActivity dbOne ⟨"d9", "tokB", "n3w"⟩).1.devices "d9"
        = some ⟨"n3w", some ("tokB")⟩)
    ∧ ((postBattery (postRegisterLiveActivity dbOne ⟨"d9", "tokB", "n3w"⟩).1 2000
        ⟨"d9", some ("n3w"), 77, true⟩ (PushEv.ended (""))).resp.status = 200)
    ∧ ((postBattery (postRegisterLiveActivity dbOne ⟨"d9", "tokB", "n3w"⟩).1 2000
        ⟨"d9", some ("n3w"), 77, true⟩ (PushEv.ended (""))).resp.ok = true)
    ∧ ((postBattery (postRegisterLiveActivity dbOne ⟨"d9", "tokB", "n3w"⟩).1 2000
        ⟨"d9", some ("n3w"), 77, true⟩ (PushEv.ended (""))).pushAttempted = true) :=
  c9_register_overwrites dbOne ⟨"d9", "tokB", "n3w"⟩ 2000 77 true (PushEv.ended (""))
    (by decide) (by decide) (by decide)

/-- C10: a well-formed `/battery` submission (nonempty device id, string
secret) whose device has no registration, or whose secret differs from the
stored one, is answered 403 and leaves the whole store untouched, with no
push attempted and no payload built. -/
theorem c10_auth_failure_atomic (db : Db) (now : Nat) (rq : BatteryReq) (ev : PushEv)
    (s : String) (hid : rq.deviceId ≠ "") (hs : rq.secret = some s)
    (hfail : ∀ reg, db.devices rq.deviceId = some reg → reg.secret ≠ s) :
    ((postBattery db now rq ev).resp.status = 403)
    ∧ ((postBattery db now rq ev).db = db)
    ∧ ((postBattery db now rq ev).pushAttempted = false)
    ∧ ((postBattery db now rq ev).payload = none) := by
  unfold postBattery
  rw [if_neg (by simp [hid, hs])]
  cases hdev : db.devices rq.deviceId with
  | none => simp
  | some reg =>
    have hne : rq.secret ≠ some reg.secret := by
      rw [hs]
      intro hcon
      injection hcon with hcon2
      exact hfail reg hdev hcon2.symm
    simp [hne]

/-- C10 (witness): submitting for registered device `d1` with the wrong
secret is rejected 403 and the store, push flag and payload are untouched. -/
theorem c10_auth_failure_atomic_witness :
    ((postBattery dbOne 1000 ⟨"d1", some ("wrong"), 42, false⟩
        (PushEv.ended (""))).resp.status = 403)
    ∧ ((postBattery dbOne 1000 ⟨"d1", some ("wrong"), 42, false⟩
        (PushEv.ended (""))).db = dbOne)
    ∧ ((postBattery dbOne 1000 ⟨"d1", some ("wrong"), 42, false⟩
        (PushEv.ended (""))).pushAttempted = false)
    ∧ ((postBattery dbOne 1000 ⟨"d1", some ("wrong"), 42, false⟩
        (PushEv.ended (""))).payload = none) := by
  apply c10_auth_failure_atomic dbOne 1000 ⟨"d1", some ("wrong"), 42, false⟩
      (PushEv.ended ("")) ("wrong") (by decide) (by decide)
  intro reg h
  have h2 := (show dbOne.devices "d1" = some (⟨"s3cr3t", some ("tokA")⟩ : Reg) by decide).symm.trans h
  injection h2 with h3
  rw [← h3]
  decide

/-- C6: for any issuer and key identifier made of plain (escape-free) ASCII
bytes, any signature bytes and any time, the credential built by `buildJwt`
is exactly three segments joined by `.`, each free of `.` and of `=`
padding, and base64url-decoding the first two segments recovers the exact
JSON header `{"alg":"ES256","kid":"<K>","typ":"JWT"}` and payload
`{"iss":"<I>","iat":<seconds>}` with the integer issue time
`nowMs / 1000`. -/
theorem c6_credential_roundtrip (teamId kid sig : List Nat) (nowMs : Nat)
    (hkid : ∀ x ∈ kid, 32 ≤ x ∧ x < 128 ∧ x ≠ 34 ∧ x ≠ 92)
    (hteam : ∀ x ∈ teamId, 32 ≤ x ∧ x < 128 ∧ x ≠ 34 ∧ x ≠ 92)
    (hsig : ∀ x ∈ sig, x < 256) :
    (buildJwt teamId kid sig nowMs =
      b64url (headerJson kid) ++ 46 :: b64url (payloadJson teamId nowMs) ++ 46 :: b64url sig)
    ∧ dotFree (b64url (headerJson kid)) = true
    ∧ dotFree (b64url (payloadJson teamId nowMs)) = true
    ∧ dotFree (b64url sig) = true
    ∧ b64urlDecode (b64url (headerJson kid)) = some (headerJson kid)
    ∧ b64urlDecode (b64url (payloadJson teamId nowMs)) = some (payloadJson teamId nowMs)
    ∧ headerJson kid =
        asciiBytes ("\x7b\"alg\":\"ES256\",\"kid\":\"") ++ kid
          ++ asciiBytes ("\",\"typ\":\"JWT\"\x7d")
    ∧ payloadJson teamId nowMs =
        asciiBytes ("\x7b\"iss\":\"") ++ teamId ++ asciiBytes ("\",\"iat\":")
          ++ natAscii (nowMs / 1000) ++ asciiBytes ("\x7d") := by
  refine ⟨by simp [buildJwt], dotFree_b64url _, dotFree_b64url _, dotFree_b64url _, ?_, ?_,
    rfl, rfl⟩
  · exact b64urlDecode_b64url _ (headerJson_lt kid (fun x hx => (hkid x hx).2.1))
  · exact b64urlDecode_b64url _ (payloadJson_lt teamId nowMs (fun x hx => (hteam x hx).2.1))

/-- C6 (witness): the credential for issuer `TM10`, key `KID1`, signature
bytes `[1, 2, 250]` at 1700000000123 ms decodes segmentwise back to its
header and payload JSON. -/
theorem c6_credential_roundtrip_witness :
    (buildJwt [84, 77, 49, 48] [75, 73, 68, 49] [1, 2, 250] 1700000000123 =
      b64url (headerJson [75, 73, 68, 49]) ++ 46 ::
        b64url (payloadJson [84, 77, 49, 48] 1700000000123) ++ 46 :: b64url [1, 2, 250])
    ∧ dotFree (b64url (headerJson [75, 73, 68, 49])) = true
    ∧ dotFree (b64url (payloadJson [84, 77, 49, 48] 1700000000123)) = true
    ∧ dotFree (b64url [1, 2, 250]) = true
    ∧ b64urlDecode (b64url (headerJson [75, 73, 68, 49])) = some (headerJson [75, 73, 68, 49])
    ∧ b64urlDecode (b64url (payloadJson [84, 77, 49, 48] 1700000000123))
        = some (payloadJson [84, 77, 49, 48] 1700000000123)
    ∧ headerJson [75, 73, 68, 49] =
        asciiBytes ("\x7b\"alg\":\"ES256\",\"kid\":\"") ++ [75, 73, 68, 49]
          ++ asciiBytes ("\",\"typ\":\"JWT\"\x7d")
    ∧ payloadJson [84, 77, 49, 48] 1700000000123 =
        asciiBytes ("\x7b\"iss\":\"") ++ [84, 77, 49, 48] ++ asciiBytes ("\",\"iat\":")
          ++ natAscii (1700000000123 / 1000) ++ asciiBytes ("\x7d") :=
  c6_credential_roundtrip [84, 77, 49, 48] [75, 73, 68, 49] [1, 2, 250] 1700000000123
    (by decide) (by decide) (by decide)

/-- C7 (counterexample): open a session, let it fail with a transport
`error`: the dead handle 0 is still in the slot and is exactly what the
next exchange receives — refuting the claim that after a transport error
the handle is discarded and a stale handle is never used. -/
theorem c7_counterexample :
    ((tmRun [TMEv.exchange, TMEv.errorEvt]).slot = some 0)
    ∧ (0 ∈ (tmRun [TMEv.exchange, TMEv.errorEvt]).broken)
    ∧ ((getApnsSession (tmRun [TMEv.exchange, TMEv.errorEvt])).2 = 0) := by decide

/-- C7 (amended): the session manager opens lazily (an empty slot yields
the fresh handle, which is stored), reuses the stored handle, and discards
it on `goaway`; but a transport `error` leaves the slot unchanged, so the
dead handle is handed out again.  Along every event trace at most one live
(never-failed, never-closed) session exists: any two live allocated
handles are equal. -/
theorem c7_session_amended (s : TM) (evs : List TMEv) (i j : Nat)
    (hi : i < (tmRun evs).nextId) (hbi : i ∉ (tmRun evs).broken)
    (hj : j < (tmRun evs).nextId) (hbj : j ∉ (tmRun evs).broken) :
    ((getApnsSession s).2 = s.slot.getD s.nextId)
    ∧ ((getApnsSession s).1.slot = some ((getApnsSession s).2))
    ∧ ((tmStep s TMEv.goaway).slot = none)
    ∧ ((tmStep s TMEv.errorEvt).slot = s.slot)
    ∧ i = j := by
  obtain ⟨slot, n, br⟩ := s
  refine ⟨?_, ?_, ?_, ?_, ?_⟩
  · cases slot <;> rfl
  · cases slot <;> rfl
  · cases slot <;> rfl
  · cases slot <;> rfl
  · have h := tmInv_run evs
    have e1 := h i hi hbi
    have e2 := h j hj hbj
    injection e1.symm.trans e2

/-- C7 (witness): after one exchange, handle 0 is allocated and alive, and
the stated slot behaviour holds at the idle initial state. -/
theorem c7_session_amended_witness :
    ((getApnsSession tmInit).2 = tmInit.slot.getD tmInit.nextId)
    ∧ ((getApnsSession tmInit).1.slot = some ((getApnsSession tmInit).2))
    ∧ ((tmStep tmInit TMEv.goaway).slot = none)
    ∧ ((tmStep tmInit TMEv.errorEvt).slot = tmInit.slot)
    ∧ 0 = 0 :=
  c7_session_amended tmInit [TMEv.exchange] 0 0
    (by decide) (by decide) (by decide) (by decide)

/-- C8: evaluating the request builders shows the divergence: the http2
variant's `sendSilentPush` emits no `apns-priority` header at all for
background pushes (the gateway then applies its default of 10, which is
invalid for background) even though the Render variant — and Apple's
protocol, quoted in the repo's own comment "background priority must be 5
(not 10)" — set 5; live-activity requests do carry priority 10
everywhere. -/
theorem c8_priority_evaluation :
    (lookupHeader (sendSilentPushHeaders ("tok1") ("jwt1") ("com.example.app"))
        ("apns-priority") = none)
    ∧ (lookupHeader (sendSilentPushHeaders ("tok1") ("jwt1") ("com.example.app"))
        ("apns-push-type") = some ("background"))
    ∧ (lookupHeader (sendLiveActivityPushHeaders ("tok1") ("jwt1") ("com.example.app"))
        ("apns-priority") = some ("10"))
    ∧ ((renderBackgroundNote ("com.example.app")).priority = some 5)
    ∧ ((renderLiveActivityNote ("com.example.app")).priority = some 10)
    ∧ ((cjsBackgroundNote ("com.example.app")).priority = none) := by decide
